import Mathlib

/-!
Shallow embedding of the port mailbox / message-buffer subsystem of
`src/src/lib.rs` (lv2-ui).

Modelling conventions:
* `f32` control values are only ever stored and copied by this subsystem
  (the spec: the system "does not interpret message contents"), so a value
  is modelled by its 4-byte representation, `F32 := List UInt8`.
* Host payload pointers become `Buffer`: either `null` or a byte list
  `mem bytes`; `copy_nonoverlapping(ptr, dst, size)` becomes
  `bytes.take size` (the caller guarantees `size` readable bytes).
* `Vec<u8>` becomes `List UInt8`; `eprintln!` reports become explicit
  `Condition` values returned alongside the new state.
* The port directory behind `map_control_port` / `map_atom_port` is a
  `List PortEntry`; lookup finds the first entry of the right kind with
  the given index.
-/

/-- A 4-byte `f32` bit pattern. The subsystem never computes with scalar
values, it only stores and forwards them, so bytes are a faithful model. -/
abbrev F32 := List UInt8

/-- Host payload pointer: null, or the bytes reachable through it. -/
inductive Buffer where
  | null
  | mem (bytes : List UInt8)
deriving DecidableEq

/-- Reading a `f32` through a payload pointer takes its first 4 bytes
(`let value: f32 = unsafe { *(buffer as *const f32) }`). -/
def readF32 : Buffer → F32
  | Buffer.null => []
  | Buffer.mem bytes => bytes.take 4

/-- `UIControlPort` from `lib.rs`: a scalar value cell with a dirty flag. -/
structure UIControlPort where
  value : F32
  changed : Bool
  index : Nat
deriving DecidableEq

/-- `UIControlPort::new`: value `0.0` (4 zero bytes), not changed. -/
def UIControlPort.new (index : Nat) : UIControlPort :=
  { value := List.replicate 4 0, changed := false, index := index }

/-- `UIControlPort::set_value`: overwrite the value, set `changed`. -/
def UIControlPort.set_value (p : UIControlPort) (v : F32) : UIControlPort :=
  { p with value := v, changed := true }

/-- `UIControlPort::changed_value`: `Some(value)` once per change, clearing
`changed`; `None` when not changed. Returned with the updated port. -/
def UIControlPort.changed_value (p : UIControlPort) : Option F32 × UIControlPort :=
  if p.changed then (some p.value, { p with changed := false }) else (none, p)

/-- `SelfAllocatingSpace` from `lib.rs`: byte buffer plus read-once flag. -/
structure SelfAllocatingSpace where
  data : List UInt8
  already_read : Bool
deriving DecidableEq

/-- `SelfAllocatingSpace::new`. -/
def SelfAllocatingSpace.new : SelfAllocatingSpace :=
  { data := [], already_read := false }

/-- `SelfAllocatingSpace::put_buffer`: discard prior content, copy `size`
bytes from the host pointer, reset `already_read`. -/
def SelfAllocatingSpace.put_buffer (s : SelfAllocatingSpace)
    (buffer : List UInt8) (size : Nat) : SelfAllocatingSpace :=
  let _ := s
  { data := buffer.take size, already_read := false }

/-- `SelfAllocatingSpace::take`: `None` if empty or already read, else the
full contents once, setting `already_read`. -/
def SelfAllocatingSpace.take (s : SelfAllocatingSpace) :
    Option (List UInt8) × SelfAllocatingSpace :=
  if s.data.length = 0 ∨ s.already_read then (none, s)
  else (some s.data, { data := s.data, already_read := true })

/-- `MutSpace::allocate for SelfAllocatingSpace`: optionally pad to the next
8-byte boundary with zero bytes, then grow by `size` zero bytes. Returns the
new space and the offset where the returned writable view begins
(`start_point` in the source). -/
def SelfAllocatingSpace.allocate (s : SelfAllocatingSpace)
    (size : Nat) (apply_padding : Bool) : SelfAllocatingSpace × Nat :=
  let padding := if apply_padding then (8 - s.data.length % 8) % 8 else 0
  let data1 := s.data ++ List.replicate padding 0
  let start_point := data1.length
  ({ data := data1 ++ List.replicate size 0, already_read := s.already_read },
   start_point)

/-- Filling the view returned by `allocate` with concrete bytes: the caller
writes `bs` into the freshly allocated region. -/
def SelfAllocatingSpace.writeBytes (s : SelfAllocatingSpace)
    (bs : List UInt8) (apply_padding : Bool) : SelfAllocatingSpace :=
  let r := s.allocate bs.length apply_padding
  { data := r.fst.data.take r.snd ++ bs, already_read := r.fst.already_read }

/-- `UIAtomPort` from `lib.rs`: outbound space (`space_to_plugin`), inbound
space (`space_to_ui`), the port's fixed atom urid, and its index. -/
structure UIAtomPort where
  space_to_plugin : SelfAllocatingSpace
  space_to_ui : SelfAllocatingSpace
  urid : Nat
  index : Nat
deriving DecidableEq

/-- `UIAtomPort::new`. -/
def UIAtomPort.new (urid index : Nat) : UIAtomPort :=
  { space_to_plugin := SelfAllocatingSpace.new
    space_to_ui := SelfAllocatingSpace.new
    urid := urid, index := index }

/-- `UIAtomPort::put_buffer`: replace the inbound space's contents. -/
def UIAtomPort.put_buffer (p : UIAtomPort)
    (buffer : List UInt8) (size : Nat) : UIAtomPort :=
  { p with space_to_ui := p.space_to_ui.put_buffer buffer size }

/-- `UIAtomPort::read`: `self.space_to_ui.take()?` then decode. The decoder
stands for `split_atom_body(urid)` composed with `A::read` — external
`lv2_atom` code, pluggable per the spec. When `take` yields nothing the
decoder is never consulted; when it yields bytes they are decoded, but the
space has already been marked read either way. -/
def UIAtomPort.read {α : Type} (p : UIAtomPort)
    (decode : List UInt8 → Option α) : Option α × UIAtomPort :=
  match p.space_to_ui.take with
  | (some bytes, s1) => (decode bytes, { p with space_to_ui := s1 })
  | (none, s1) => (none, { p with space_to_ui := s1 })

/-- `UIAtomPort::init`, first statement: staging a fresh outbound message
begins by replacing `space_to_plugin` with a new empty space (the atom
header that `lv2_atom`'s `init` then writes is external codec work). -/
def UIAtomPort.begin_outbound (p : UIAtomPort) : UIAtomPort :=
  { p with space_to_plugin := SelfAllocatingSpace.new }

/-- Staging an outbound message: clear the outbound space, then append
`bs` through the allocate-and-fill path. -/
def UIAtomPort.stage (p : UIAtomPort) (bs : List UInt8) : UIAtomPort :=
  let q := p.begin_outbound
  { q with space_to_plugin := q.space_to_plugin.writeBytes bs false }

/-- The conditions `port_event` reports through `eprintln!`. -/
inductive Condition where
  | unknownControlPort (index : Nat)
  | unknownAtomPort (index : Nat)
  | uridMismatch (index : Nat)
deriving DecidableEq

/-- One entry of the port directory behind `map_control_port` /
`map_atom_port`. -/
inductive PortEntry where
  | control (p : UIControlPort)
  | atom (p : UIAtomPort)
deriving DecidableEq

/-- `map_control_port`: first control port with the given index. -/
def findControl : List PortEntry → Nat → Option UIControlPort
  | [], _ => none
  | PortEntry.control p :: rest, idx =>
    if p.index = idx then some p else findControl rest idx
  | PortEntry.atom _ :: rest, idx => findControl rest idx

/-- `map_atom_port`: first atom port with the given index. -/
def findAtom : List PortEntry → Nat → Option UIAtomPort
  | [], _ => none
  | PortEntry.control _ :: rest, idx => findAtom rest idx
  | PortEntry.atom p :: rest, idx =>
    if p.index = idx then some p else findAtom rest idx

/-- The `format = 0` arm of `port_event`: resolve the control port and
`set_value` the already-read scalar, or report an unknown-port condition. -/
def dispatchControl : List PortEntry → Nat → F32 → List PortEntry × List Condition
  | [], idx, _ => ([], [Condition.unknownControlPort idx])
  | PortEntry.control p :: rest, idx, v =>
    if p.index = idx then (PortEntry.control (p.set_value v) :: rest, [])
    else
      let r := dispatchControl rest idx v
      (PortEntry.control p :: r.fst, r.snd)
  | PortEntry.atom p :: rest, idx, v =>
    let r := dispatchControl rest idx v
    (PortEntry.atom p :: r.fst, r.snd)

/-- The nonzero-format arm of `port_event`: resolve the atom port; on a
urid match copy the payload in through `put_buffer` (a null payload pointer
is silently skipped by `ptr::NonNull::new`); on a mismatch report it; on a
failed lookup report the unknown port. -/
def dispatchAtom : List PortEntry → Nat → Nat → Nat → Buffer →
    List PortEntry × List Condition
  | [], idx, _, _, _ => ([], [Condition.unknownAtomPort idx])
  | PortEntry.control p :: rest, idx, size, format, buffer =>
    let r := dispatchAtom rest idx size format buffer
    (PortEntry.control p :: r.fst, r.snd)
  | PortEntry.atom p :: rest, idx, size, format, buffer =>
    if p.index = idx then
      if p.urid = format then
        match buffer with
        | Buffer.null => (PortEntry.atom p :: rest, [])
        | Buffer.mem bytes =>
          (PortEntry.atom (p.put_buffer bytes size) :: rest, [])
      else (PortEntry.atom p :: rest, [Condition.uridMismatch idx])
    else
      let r := dispatchAtom rest idx size format buffer
      (PortEntry.atom p :: r.fst, r.snd)

/-- `UIPortsTrait::port_event`: dispatch on `format`. For `format = 0` the
scalar is read from the payload pointer (before the lookup, as in the
source) and `buffer_size` is never consulted. -/
def port_event (d : List PortEntry) (port_index buffer_size format : Nat)
    (buffer : Buffer) : List PortEntry × List Condition :=
  if format = 0 then
    let _ := buffer_size
    dispatchControl d port_index (readF32 buffer)
  else dispatchAtom d port_index buffer_size format buffer

/-- One outbound emission handed to the host write function:
`(port_index, buffer_size, protocol, data bytes)`. -/
structure Emission where
  index : Nat
  size : Nat
  protocol : Nat
  bytes : List UInt8
deriving DecidableEq

/-- Modelled from the spec: the Write-Back Scanner (`scan_and_emit`, spec
section 4.5) is not part of `src/src/lib.rs` — the source only provides the
per-port pieces (`UIControlPort::changed_value`,
`PluginPortWriteHandle::write_port`, the outbound space accessors); the
loop that walks the directory lives outside `src/`. Following the spec: the
directory is visited in order exactly once; a scalar port is polled through
`changed_value()` and emitted as `(index, 4, 0, value)` when changed; an
atom port with nonempty outbound space is emitted as
`(index, outbound_size, urid, outbound_bytes)` and its outbound space is
then cleared. -/
def scan_and_emit : List PortEntry → List PortEntry × List Emission
  | [] => ([], [])
  | PortEntry.control p :: rest =>
    let r := scan_and_emit rest
    match p.changed_value with
    | (some v, p1) =>
      (PortEntry.control p1 :: r.fst,
       { index := p1.index, size := 4, protocol := 0, bytes := v } :: r.snd)
    | (none, p1) => (PortEntry.control p1 :: r.fst, r.snd)
  | PortEntry.atom p :: rest =>
    let r := scan_and_emit rest
    if 0 < p.space_to_plugin.data.length then
      (PortEntry.atom
         { p with space_to_plugin :=
             { data := [], already_read := p.space_to_plugin.already_read } }
         :: r.fst,
       { index := p.index, size := p.space_to_plugin.data.length
         protocol := p.urid, bytes := p.space_to_plugin.data } :: r.snd)
    else (PortEntry.atom p :: r.fst, r.snd)

/-- Staging helper for the end-to-end scenario: stage `bs` as the outbound
message of the atom port at `idx`. -/
def stageOutbound (d : List PortEntry) (idx : Nat) (bs : List UInt8) :
    List PortEntry :=
  d.map fun e =>
    match e with
    | PortEntry.atom p =>
      if p.index = idx then PortEntry.atom (p.stage bs) else e
    | PortEntry.control _ => e

/-- C1: `replace(b, L)` with `L = len(b) > 0` followed by `consume_once()`
yields exactly `b`; a second `consume_once()` without an intervening
replace yields `None`; and a further `replace` resets the consumed flag so
the new message is readable again. -/
theorem put_buffer_take_roundtrip (s : SelfAllocatingSpace)
    (b b2 : List UInt8) (hb : 0 < b.length) (hb2 : 0 < b2.length) :
    ((s.put_buffer b b.length).take).fst = some b ∧
    (((s.put_buffer b b.length).take).snd.take).fst = none ∧
    ((((s.put_buffer b b.length).take).snd.put_buffer b2 b2.length).take).fst
      = some b2 := by
  simp [SelfAllocatingSpace.put_buffer, SelfAllocatingSpace.take,
    List.take_length, Nat.pos_iff_ne_zero.mp hb, Nat.pos_iff_ne_zero.mp hb2]

/-- Witness for C1 at concrete inputs. -/
theorem put_buffer_take_roundtrip_witness :
    ((SelfAllocatingSpace.new.put_buffer [1] 1).take).fst = some [1] ∧
    (((SelfAllocatingSpace.new.put_buffer [1] 1).take).snd.take).fst = none ∧
    ((((SelfAllocatingSpace.new.put_buffer [1] 1).take).snd.put_buffer [2, 3] 2).take).fst
      = some [2, 3] :=
  put_buffer_take_roundtrip SelfAllocatingSpace.new [1] [2, 3]
    (by decide) (by decide)

/-- C2: after any sequence of `set_value` calls ending in `set_value v`,
`changed_value()` yields `Some v` exactly once and then `None`; and every
single `set_value w` overwrites the value and sets the dirty flag
unconditionally. -/
theorem set_value_changed_value_once (p : UIControlPort) (vs : List F32)
    (v : F32) :
    (((vs ++ [v]).foldl UIControlPort.set_value p).changed_value).fst = some v ∧
    ((((vs ++ [v]).foldl UIControlPort.set_value p).changed_value).snd.changed_value).fst
      = none ∧
    (∀ q : UIControlPort, ∀ w : F32,
      (q.set_value w).value = w ∧ (q.set_value w).changed = true) := by
  refine ⟨?_, ?_, ?_⟩ <;>
    simp [List.foldl_append, UIControlPort.set_value, UIControlPort.changed_value]

/-- C5: `allocate(n, apply_padding)` from a buffer of length `k` pads with
`(8 - k % 8) % 8` zero bytes when padding is requested (none otherwise),
returns a view of exactly `n` zero-initialised bytes starting at
`k + (8 - k % 8) % 8` (at `k` without padding), and leaves the buffer's
total length equal to that offset plus `n`; `n = 0` is legal and yields an
empty view. -/
theorem allocate_alignment (s : SelfAllocatingSpace) (n : Nat) :
    (s.allocate n true).snd = s.data.length + (8 - s.data.length % 8) % 8 ∧
    (s.allocate n true).fst.data
      = s.data ++ List.replicate ((8 - s.data.length % 8) % 8) 0
          ++ List.replicate n 0 ∧
    (s.allocate n true).fst.data.length = (s.allocate n true).snd + n ∧
    List.drop ((s.allocate n true).snd) (s.allocate n true).fst.data
      = List.replicate n 0 ∧
    (s.allocate n false).snd = s.data.length ∧
    (s.allocate n false).fst.data = s.data ++ List.replicate n 0 ∧
    List.drop ((s.allocate 0 true).snd) (s.allocate 0 true).fst.data = [] := by
  refine ⟨by simp [SelfAllocatingSpace.allocate], ?_, ?_, ?_, ?_, ?_, ?_⟩ <;>
    simp [SelfAllocatingSpace.allocate, List.drop_left, List.append_assoc,
      Nat.add_assoc]

/-- C8: `replace` with length 0 yields a buffer whose `consume_once()`
returns `None`: a zero-length message reads as no message at all. -/
theorem put_buffer_zero_take_none (s : SelfAllocatingSpace)
    (b : List UInt8) :
    ((s.put_buffer b 0).take).fst = none ∧ (s.put_buffer b 0).data = [] := by
  simp [SelfAllocatingSpace.put_buffer, SelfAllocatingSpace.take]

theorem dispatchControl_not_found (d : List PortEntry) (idx : Nat) (v : F32)
    (h : findControl d idx = none) :
    dispatchControl d idx v = (d, [Condition.unknownControlPort idx]) := by
  induction d with
  | nil => rfl
  | cons e rest ih =>
    cases e with
    | control p =>
      by_cases hp : p.index = idx
      · simp [findControl, hp] at h
      · simp [findControl, hp] at h
        simp [dispatchControl, hp, ih h]
    | atom p =>
      simp [findControl] at h
      simp [dispatchControl, ih h]

theorem dispatchControl_found (d : List PortEntry) (idx : Nat) (v : F32)
    (p : UIControlPort) (h : findControl d idx = some p) :
    (dispatchControl d idx v).snd = [] ∧
    findControl (dispatchControl d idx v).fst idx = some (p.set_value v) := by
  induction d with
  | nil => simp [findControl] at h
  | cons e rest ih =>
    cases e with
    | control q =>
      by_cases hq : q.index = idx
      · simp [findControl, hq] at h
        subst h
        simp [dispatchControl, hq, findControl, UIControlPort.set_value]
      · simp [findControl, hq] at h
        have r := ih h
        simp [dispatchControl, hq, findControl, r.1, r.2]
    | atom q =>
      simp [findControl] at h
      have r := ih h
      simp [dispatchControl, findControl, r.1, r.2]

theorem dispatchAtom_not_found (d : List PortEntry)
    (idx size format : Nat) (buffer : Buffer)
    (h : findAtom d idx = none) :
    dispatchAtom d idx size format buffer
      = (d, [Condition.unknownAtomPort idx]) := by
  induction d with
  | nil => rfl
  | cons e rest ih =>
    cases e with
    | control p =>
      simp [findAtom] at h
      simp [dispatchAtom, ih h]
    | atom p =>
      by_cases hp : p.index = idx
      · simp [findAtom, hp] at h
      · simp [findAtom, hp] at h
        simp [dispatchAtom, hp, ih h]

theorem dispatchAtom_tag_mismatch (d : List PortEntry)
    (idx size format : Nat) (buffer : Buffer) (p : UIAtomPort)
    (h : findAtom d idx = some p) (hu : p.urid ≠ format) :
    dispatchAtom d idx size format buffer
      = (d, [Condition.uridMismatch idx]) := by
  induction d with
  | nil => simp [findAtom] at h
  | cons e rest ih =>
    cases e with
    | control q =>
      simp [findAtom] at h
      simp [dispatchAtom, ih h]
    | atom q =>
      by_cases hq : q.index = idx
      · simp [findAtom, hq] at h
        subst h
        simp [dispatchAtom, hq, hu]
      · simp [findAtom, hq] at h
        simp [dispatchAtom, hq, ih h]

theorem dispatchAtom_null_payload (d : List PortEntry)
    (idx size format : Nat) (p : UIAtomPort)
    (h : findAtom d idx = some p) (hu : p.urid = format) :
    dispatchAtom d idx size format Buffer.null = (d, []) := by
  induction d with
  | nil => simp [findAtom] at h
  | cons e rest ih =>
    cases e with
    | control q =>
      simp [findAtom] at h
      simp [dispatchAtom, ih h]
    | atom q =>
      by_cases hq : q.index = idx
      · simp [findAtom, hq] at h
        subst h
        simp [dispatchAtom, hq, hu]
      · simp [findAtom, hq] at h
        simp [dispatchAtom, hq, ih h]

/-- C3 counterexample: a scalar event with `buffer_size = 8 ≠ 4` addressed
at an existing control port is NOT rejected: no condition is reported and
the port's value and dirty flag are overwritten, contradicting the claimed
SizeMismatch-and-abort behaviour. -/
theorem scalar_size_mismatch_counterexample :
    port_event [PortEntry.control (UIControlPort.new 0)] 0 8 0
        (Buffer.mem [1, 2, 3, 4, 5, 6, 7, 8])
      = ([PortEntry.control
            { value := [1, 2, 3, 4], changed := true, index := 0 }], []) := by
  decide

/-- C3 amended: `port_event` for a scalar event (`format = 0`) never
consults `buffer_size`: for any two sizes the outcome is identical, no
condition is reported when the control port resolves, and the resolved
port's value is overwritten with the 4 bytes read from the payload with
the dirty flag set — there is no size check and no SizeMismatch report. -/
theorem scalar_dispatch_ignores_size (d : List PortEntry)
    (idx size size2 : Nat) (buffer : Buffer) (p : UIControlPort)
    (h : findControl d idx = some p) :
    port_event d idx size 0 buffer = port_event d idx size2 0 buffer ∧
    (port_event d idx size 0 buffer).snd = [] ∧
    findControl (port_event d idx size 0 buffer).fst idx
      = some (p.set_value (readF32 buffer)) := by
  have r := dispatchControl_found d idx (readF32 buffer) p h
  exact ⟨rfl, by simpa [port_event] using r.1, by simpa [port_event] using r.2⟩

/-- Witness for the amended C3 at concrete inputs. -/
theorem scalar_dispatch_ignores_size_witness :
    port_event [PortEntry.control (UIControlPort.new 0)] 0 8 0
        (Buffer.mem [1, 2, 3, 4, 5, 6, 7, 8])
      = port_event [PortEntry.control (UIControlPort.new 0)] 0 4 0
          (Buffer.mem [1, 2, 3, 4, 5, 6, 7, 8]) ∧
    (port_event [PortEntry.control (UIControlPort.new 0)] 0 8 0
        (Buffer.mem [1, 2, 3, 4, 5, 6, 7, 8])).snd = [] ∧
    findControl (port_event [PortEntry.control (UIControlPort.new 0)] 0 8 0
        (Buffer.mem [1, 2, 3, 4, 5, 6, 7, 8])).fst 0
      = some ((UIControlPort.new 0).set_value
          (readF32 (Buffer.mem [1, 2, 3, 4, 5, 6, 7, 8]))) :=
  scalar_dispatch_ignores_size [PortEntry.control (UIControlPort.new 0)]
    0 8 4 (Buffer.mem [1, 2, 3, 4, 5, 6, 7, 8]) (UIControlPort.new 0)
    (by decide)

/-- C6: a typed event (`format ≠ 0`) whose tag differs from the resolved
atom port's fixed urid reports the mismatch condition and leaves the whole
directory — in particular the port's inbound buffer and every other piece
of port state — unchanged. -/
theorem typed_dispatch_tag_mismatch (d : List PortEntry)
    (idx size format : Nat) (buffer : Buffer) (p : UIAtomPort)
    (hf : format ≠ 0) (hp : findAtom d idx = some p)
    (hu : p.urid ≠ format) :
    port_event d idx size format buffer = (d, [Condition.uridMismatch idx]) := by
  simpa [port_event, hf] using
    dispatchAtom_tag_mismatch d idx size format buffer p hp hu

/-- Witness for C6 at concrete inputs. -/
theorem typed_dispatch_tag_mismatch_witness :
    port_event [PortEntry.atom (UIAtomPort.new 7 1)] 1 10 5
        (Buffer.mem [9, 9])
      = ([PortEntry.atom (UIAtomPort.new 7 1)], [Condition.uridMismatch 1]) :=
  typed_dispatch_tag_mismatch [PortEntry.atom (UIAtomPort.new 7 1)]
    1 10 5 (Buffer.mem [9, 9]) (UIAtomPort.new 7 1)
    (by decide) (by decide) (by decide)

/-- C7: a dispatch whose index resolves to no port of the required kind
mutates nothing — the directory is returned exactly as it was — and
reports the unknown-port condition of the corresponding branch. -/
theorem dispatch_unknown_index (d : List PortEntry)
    (idx size format : Nat) (buffer : Buffer)
    (h : if format = 0 then findControl d idx = none
         else findAtom d idx = none) :
    port_event d idx size format buffer
      = (d, [if format = 0 then Condition.unknownControlPort idx
             else Condition.unknownAtomPort idx]) := by
  by_cases hf : format = 0
  · simp only [hf, if_true] at h ⊢
    simpa [port_event] using dispatchControl_not_found d idx (readF32 buffer) h
  · simp only [hf, if_false] at h ⊢
    simpa [port_event, hf] using dispatchAtom_not_found d idx size format buffer h

/-- Witness for C7 at concrete inputs. -/
theorem dispatch_unknown_index_witness :
    port_event [PortEntry.atom (UIAtomPort.new 7 1)] 5 4 0
        (Buffer.mem [0, 0, 0, 0])
      = ([PortEntry.atom (UIAtomPort.new 7 1)],
         [Condition.unknownControlPort 5]) :=
  dispatch_unknown_index [PortEntry.atom (UIAtomPort.new 7 1)] 5 4 0
    (Buffer.mem [0, 0, 0, 0]) (by decide)

/-- C10: a typed event whose tag matches the resolved atom port but whose
payload pointer is null is a silent no-op for every `buffer_size`: the
directory is unchanged and no condition at all is reported. -/
theorem typed_dispatch_null_payload (d : List PortEntry)
    (idx size format : Nat) (p : UIAtomPort)
    (hf : format ≠ 0) (hp : findAtom d idx = some p)
    (hu : p.urid = format) :
    port_event d idx size format Buffer.null = (d, []) := by
  simpa [port_event, hf] using
    dispatchAtom_null_payload d idx size format p hp hu

/-- Witness for C10 at concrete inputs. -/
theorem typed_dispatch_null_payload_witness :
    port_event [PortEntry.atom (UIAtomPort.new 7 1)] 1 99 7 Buffer.null
      = ([PortEntry.atom (UIAtomPort.new 7 1)], []) :=
  typed_dispatch_null_payload [PortEntry.atom (UIAtomPort.new 7 1)]
    1 99 7 (UIAtomPort.new 7 1) (by decide) (by decide) (by decide)

/-- C9: a pending inbound message (nonempty, not yet consumed) is marked
consumed by a single `read` even when the decoder rejects the bytes: the
call returns `None`, the read-once flag is set with the bytes still stored,
and every subsequent `read` — with any decoder — returns `None` too. -/
theorem read_consumes_on_decode_failure {α β : Type} (p : UIAtomPort)
    (decode : List UInt8 → Option α) (decode2 : List UInt8 → Option β)
    (hne : p.space_to_ui.data ≠ [])
    (hr : p.space_to_ui.already_read = false)
    (hd : decode p.space_to_ui.data = none) :
    (p.read decode).fst = none ∧
    (p.read decode).snd.space_to_ui.already_read = true ∧
    (p.read decode).snd.space_to_ui.data = p.space_to_ui.data ∧
    ((p.read decode).snd.read decode2).fst = none := by
  rcases p with ⟨sp, ⟨dat, ar⟩, u, i⟩
  simp only at hne hr hd
  subst hr
  refine ⟨?_, ?_, ?_, ?_⟩ <;>
    simp [UIAtomPort.read, SelfAllocatingSpace.take, List.length_eq_zero,
      hne, hd]

/-- Witness for C9 at concrete inputs. -/
theorem read_consumes_on_decode_failure_witness :
    ((UIAtomPort.mk SelfAllocatingSpace.new
        (SelfAllocatingSpace.mk [1] false) 7 0).read
        (fun _ => (none : Option Nat))).fst = none ∧
    ((UIAtomPort.mk SelfAllocatingSpace.new
        (SelfAllocatingSpace.mk [1] false) 7 0).read
        (fun _ => (none : Option Nat))).snd.space_to_ui.already_read = true ∧
    ((UIAtomPort.mk SelfAllocatingSpace.new
        (SelfAllocatingSpace.mk [1] false) 7 0).read
        (fun _ => (none : Option Nat))).snd.space_to_ui.data
      = (SelfAllocatingSpace.mk [1] false).data ∧
    (((UIAtomPort.mk SelfAllocatingSpace.new
        (SelfAllocatingSpace.mk [1] false) 7 0).read
        (fun _ => (none : Option Nat))).snd.read
        (fun _ => (none : Option Nat))).fst = none :=
  read_consumes_on_decode_failure
    (UIAtomPort.mk SelfAllocatingSpace.new
      (SelfAllocatingSpace.mk [1] false) 7 0)
    (fun _ => (none : Option Nat)) (fun _ => (none : Option Nat))
    (by decide) rfl rfl

theorem scan_and_emit_quiescent (d : List PortEntry) :
    (scan_and_emit (scan_and_emit d).fst).snd = [] := by
  induction d with
  | nil => rfl
  | cons e rest ih =>
    cases e with
    | control p =>
      rcases p with ⟨v, c, i⟩
      cases c <;> simp [scan_and_emit, UIControlPort.changed_value, ih]
    | atom p =>
      by_cases h : 0 < p.space_to_plugin.data.length
      · simp [scan_and_emit, h, ih]
      · simp [scan_and_emit, h, ih]

/-- The end-to-end directory of the spec scenario: a scalar port at index
0 and an atom port with urid 7 at index 1. -/
def demoDirectory : List PortEntry :=
  [PortEntry.control (UIControlPort.new 0), PortEntry.atom (UIAtomPort.new 7 1)]

/-- The scenario directory after `dispatch(0, 4, 0, bytes-of-3.5f)` and
`dispatch(1, 10, 7, bytes-of-the-digits)` (the 4 bytes `[0, 0, 96, 64]` are
the little-endian representation of `3.5f32`). -/
def demoAfterEvents : List PortEntry :=
  (port_event
    (port_event demoDirectory 0 4 0 (Buffer.mem [0, 0, 96, 64])).fst
    1 10 7 (Buffer.mem [48, 49, 50, 51, 52, 53, 54, 55, 56, 57])).fst

/-- First write-back scan of the scenario. -/
def demoScan1 : List PortEntry × List Emission := scan_and_emit demoAfterEvents

/-- The scenario directory after staging a 5-byte outbound message on the
atom port at index 1. -/
def demoStaged : List PortEntry :=
  stageOutbound demoScan1.fst 1 [10, 11, 12, 13, 14]

/-- Second write-back scan of the scenario. -/
def demoScan2 : List PortEntry × List Emission := scan_and_emit demoStaged

/-- Third write-back scan of the scenario. -/
def demoScan3 : List PortEntry × List Emission := scan_and_emit demoScan2.fst

/-- C4: the write-back scan emits exactly the ports with pending outbound
state, in index order. In the scenario: the first scan emits only the
dirty scalar port (as index 0, 4 bytes, tag 0, the 3.5f bytes) and not the
atom port with nothing staged; after staging 5 bytes the second scan emits
exactly `(1, 5, 7, those bytes)` and clears the outbound buffer; the third
scan emits nothing. In general a scan immediately following a scan, with
no new staging in between, emits nothing. -/
theorem scan_and_emit_spec :
    demoScan1.snd
      = [{ index := 0, size := 4, protocol := 0, bytes := [0, 0, 96, 64] }] ∧
    (findControl demoScan1.fst 0).map (fun p => p.changed) = some false ∧
    demoScan2.snd
      = [{ index := 1, size := 5, protocol := 7
           bytes := [10, 11, 12, 13, 14] }] ∧
    (findAtom demoScan2.fst 1).map (fun p => p.space_to_plugin.data)
      = some [] ∧
    demoScan3.snd = [] ∧
    (∀ d : List PortEntry, (scan_and_emit (scan_and_emit d).fst).snd = []) :=
  ⟨by decide, by decide, by decide, by decide, by decide,
   scan_and_emit_quiescent⟩
